import Mathlib

set_option maxRecDepth 4000

/-!
Shallow embedding of `src/openshift-go-monolith/main.go`: a small HTTP demo
service with four handlers (info, write, stats, health), two process-wide
atomic int64 counters, and a log writer that writes one timestamped text file
per write request under a log directory.

Modelling conventions:
* Go `int64` counters are `Int` with explicit two's-complement wrap-around
  (`int64Wrap`), mirroring `atomic.AddInt64`.
* The filesystem is an association list from file path to file content;
  `os.OpenFile(path, O_CREATE|O_WRONLY|O_TRUNC, 0644)` truncates the file to
  empty content on success, and a later `WriteString` replaces that content.
* Nondeterministic I/O outcomes (directory creation, file creation, content
  write, hostname lookup) and ambient readings (clock, runtime stats,
  process environment) are passed in explicitly as an oracle record per
  request; a `some msg` error field means that syscall fails with that
  message, mirroring the `err != nil` branches in the Go code.
* `os.Getenv` semantics: the process environment is a key/value list; an
  absent key reads as the empty string (exactly Go's behaviour).
* `os.Hostname` returns the pair `("", err)` on failure, so a model failure
  (`hostnameRes = none`) yields the empty string where the error is
  discarded (`hostname, _ := os.Hostname()` in `writeHandler`).
-/

namespace Monolith

/-- Two's-complement wrap into the `int64` range, as `atomic.AddInt64` does. -/
def int64Wrap (x : Int) : Int := (x + 2 ^ 63) % 2 ^ 64 - 2 ^ 63

/-- `atomic.AddInt64(&c, d)`: add with `int64` wrap-around. -/
def addInt64 (c d : Int) : Int := int64Wrap (c + d)

/-- The mutable process state: the two counters (`requestCount`,
`writeCount` in `main.go`) and the filesystem, as path ↦ content. -/
structure ServerState where
  requestCount : Int
  writeCount : Int
  fs : List (String × String)
deriving Repr, DecidableEq

/-- The request fields the handlers read (`r.Method`, `r.URL.Path`,
`r.RemoteAddr`, `r.UserAgent()`). -/
structure Request where
  method : String
  urlPath : String
  remoteAddr : String
  userAgent : String
deriving Repr, DecidableEq

/-- An HTTP response: status code and body. `w.Write` without an explicit
`WriteHeader` sends status 200; `http.Error(w, msg, 500)` sends status 500
with body `msg ++ "\n"`. -/
structure HttpResponse where
  status : Nat
  body : String
deriving Repr, DecidableEq

/-- Read a file's content from the filesystem map. -/
def fsGet (fs : List (String × String)) (p : String) : Option String :=
  match fs with
  | [] => none
  | (q, c) :: rest => if q = p then some c else fsGet rest p

/-- Create or overwrite the file at path `p` with content `c`. -/
def fsSet (fs : List (String × String)) (p c : String) : List (String × String) :=
  match fs with
  | [] => [(p, c)]
  | (q, d) :: rest => if q = p then (p, c) :: rest else (q, d) :: fsSet rest p c

/-- `os.Getenv`: an absent key reads as the empty string. -/
def osGetenv (environ : List (String × String)) (key : String) : String :=
  match environ.lookup key with
  | some v => v
  | none => ""

/-- `getEnvOrDefault` from `main.go`: return the environment value when it is
non-empty, the default otherwise. -/
def getEnvOrDefault (environ : List (String × String)) (key defaultValue : String) : String :=
  let value := osGetenv environ key
  if value ≠ "" then value else defaultValue

/-- A wall-clock reading at second resolution, the fields Go's
`time.Time.Format("20060102-150405")` consumes. -/
structure GoTime where
  year : Nat
  month : Nat
  day : Nat
  hour : Nat
  minute : Nat
  second : Nat
deriving Repr, DecidableEq

/-- The decimal digit character for `n < 10`. -/
def digitChar (n : Nat) : Char := Char.ofNat (48 + n)

/-- Two-digit zero-padded decimal, as Go's time formatter renders `01`, `02`,
`15`, `04`, `05` verbs (values ≥ 100 cannot arise from a valid `time.Time`;
Go would print all their digits, as we do). -/
def pad2 (n : Nat) : String :=
  if n < 100 then String.mk [digitChar (n / 10), digitChar (n % 10)] else Nat.repr n

/-- Four-digit zero-padded decimal, as Go's time formatter renders the `2006`
year verb for years 0–9999 (a larger year would print all its digits). -/
def pad4 (n : Nat) : String :=
  if n < 10000 then
    String.mk [digitChar (n / 1000), digitChar (n / 100 % 10), digitChar (n / 10 % 10),
      digitChar (n % 10)]
  else Nat.repr n

/-- `time.Now().Format("20060102-150405")` (line 93 of `main.go`). -/
def formatYmdHms (t : GoTime) : String :=
  pad4 t.year ++ pad2 t.month ++ pad2 t.day ++ "-" ++ pad2 t.hour ++ pad2 t.minute ++
    pad2 t.second

/-- The fixed log directory of `writeHandler`: `logDir := "./data/log"`. -/
def logDir : String := "./data/log"

/-- `filepath.Join("./data/log", f)`: `Join` cleans the leading `./`,
yielding `data/log/f`. -/
def joinLogDir (f : String) : String := "data/log/" ++ f

/-- The log file content template of `writeHandler` (lines 112–169 of
`main.go`), with the sixteen format arguments supplied in source order.
`clientAddr` is interpolated twice because the Go code passes `r.RemoteAddr`
for both the Client IP and the Remote Address slot. -/
def renderLogContent (ts : String) (opNum : Int) (appName envName hostname clientAddr : String)
    (goVer : String) (totalReq : Int) (uptime : String) (goroutines : Int) (memMB : Nat)
    (method urlPath userAgent : String) : String :=
  "========================================\n" ++
  "🚀 OpenShift Go Monolith - Volume Write Log\n" ++
  "========================================\n\n" ++
  "⏰ Timestamp:        " ++ ts ++ "\n" ++
  "🔢 Operation Number: " ++ toString opNum ++ "\n" ++
  "📦 Application:      " ++ appName ++ "\n" ++
  "🌍 Environment:      " ++ envName ++ "\n" ++
  "🏠 Hostname:         " ++ hostname ++ "\n" ++
  "🌐 Client IP:        " ++ clientAddr ++ "\n" ++
  "🐹 Go Version:       " ++ goVer ++ "\n" ++
  "📊 Total Requests:   " ++ toString totalReq ++ "\n" ++
  "⏱️  Uptime:           " ++ uptime ++ "\n\n" ++
  "========================================\n" ++
  "📝 Log Entry Details\n" ++
  "========================================\n\n" ++
  "This log file was created as part of write operation #" ++ toString opNum ++ ".\n" ++
  "The application successfully wrote data to the persistent volume.\n" ++
  "No cap, this is bussin fr fr! 💯\n\n" ++
  "🖥️  System Information:\n" ++
  "- Number of Goroutines: " ++ toString goroutines ++ "\n" ++
  "- Memory Allocated: " ++ toString memMB ++ " MB\n" ++
  "- Status: Running smooth like butter 🧈\n\n" ++
  "📡 Request Information:\n" ++
  "- Method: " ++ method ++ "\n" ++
  "- Path: " ++ urlPath ++ "\n" ++
  "- User Agent: " ++ userAgent ++ "\n" ++
  "- Remote Address: " ++ clientAddr ++ "\n\n" ++
  "💭 Vibes: Immaculate ✨\n" ++
  "🎯 Status: Mission accomplished, chief! \n" ++
  "🔥 Performance: Absolutely slaying rn\n\n" ++
  "========================================\n" ++
  "✅ End of Log - Stay hydrated! 💧\n" ++
  "========================================\n"

/-- The plain-text success confirmation of `writeHandler`
(lines 181–195 of `main.go`). -/
def renderWriteResponse (filename : String) (opNum : Int) (ts : String) (size : Nat) : String :=
  "✓ Data written to volume successfully\n\n" ++
  "📁 File: " ++ filename ++ "\n" ++
  "🔢 Operation: #" ++ toString opNum ++ "\n" ++
  "⏰ Timestamp: " ++ ts ++ "\n" ++
  "📏 Size: " ++ toString size ++ " bytes\n\n" ++
  "📂 Log directory: " ++ logDir ++ "\n\n" ++
  "💯 Status: Absolutely fire! No printer, just facts! 🔥"

/-- Hexadecimal digit character for `n < 16`. -/
def hexDigitChar (n : Nat) : Char :=
  if n < 10 then Char.ofNat (48 + n) else Char.ofNat (87 + n)

/-- Escape one character the way `encoding/json` (with default HTML
escaping) renders it inside a JSON string. -/
def jsonEscapeChar (c : Char) : String :=
  if c = '"' then "\\\""
  else if c = '\\' then "\\\\"
  else if c = '\n' then "\\n"
  else if c = '\r' then "\\r"
  else if c = '\t' then "\\t"
  else if c = '<' then "\\u003c"
  else if c = '>' then "\\u003e"
  else if c = '&' then "\\u0026"
  else if c.toNat < 32 then
    "\\u00" ++ String.mk [hexDigitChar (c.toNat / 16), hexDigitChar (c.toNat % 16)]
  else String.mk [c]

/-- A JSON string literal with its quotes. -/
def jsonStr (s : String) : String :=
  "\"" ++ String.join (s.data.map jsonEscapeChar) ++ "\""

/-- The `AppInfo` response record of `main.go`. The timestamp is carried as
its already-rendered RFC 3339 string, which is how `time.Time` marshals. -/
structure AppInfo where
  appName : String
  envName : String
  dbUser : String
  version : String
  hostname : String
  timestamp : String
deriving Repr, DecidableEq

/-- `json.NewEncoder(w).Encode(info)`: the JSON object in struct-tag order,
with the trailing newline the encoder appends. -/
def encodeAppInfo (a : AppInfo) : String :=
  "\x7b\"app_name\":" ++ jsonStr a.appName ++
  ",\"environment\":" ++ jsonStr a.envName ++
  ",\"db_user\":" ++ jsonStr a.dbUser ++
  ",\"version\":" ++ jsonStr a.version ++
  ",\"hostname\":" ++ jsonStr a.hostname ++
  ",\"timestamp\":" ++ jsonStr a.timestamp ++ "\x7d\n"

/-- The `Stats` response record of `main.go`. -/
structure Stats where
  uptime : String
  totalRequests : Int
  writeOps : Int
  goVersion : String
  numGoroutines : Int
  memoryAllocMB : Nat
  serverTime : String
deriving Repr, DecidableEq

/-- `json.NewEncoder(w).Encode(stats)`: the JSON object in struct-tag order,
with the trailing newline the encoder appends. -/
def encodeStats (st : Stats) : String :=
  "\x7b\"uptime\":" ++ jsonStr st.uptime ++
  ",\"total_requests\":" ++ toString st.totalRequests ++
  ",\"write_operations\":" ++ toString st.writeOps ++
  ",\"go_version\":" ++ jsonStr st.goVersion ++
  ",\"goroutines\":" ++ toString st.numGoroutines ++
  ",\"memory_alloc_mb\":" ++ toString st.memoryAllocMB ++
  ",\"server_time\":" ++ jsonStr st.serverTime ++ "\x7d\n"

/-- The ambient inputs and I/O outcomes of one `writeHandler` invocation:
the process environment, the hostname lookup result (`none` = `os.Hostname`
failed and returned `("", err)`), the clock readings of the three separate
`time.Now()` calls, the runtime statistics, and the outcome of each
filesystem syscall (`some msg` = that call fails with message `msg`).
`partLen` models how many characters a failed `WriteString` managed to
flush before erroring. -/
structure WriteEnv where
  environ : List (String × String)
  hostnameRes : Option String
  now : GoTime
  nowRFC3339 : String
  respRFC3339 : String
  uptime : String
  goVersion : String
  goroutines : Int
  memMB : Nat
  mkdirErr : Option String
  openErr : Option String
  writeErr : Option String
  partLen : Nat

/-- `writeHandler` (lines 75–199 of `main.go`): increment both counters,
ensure the log directory, create/truncate the timestamped file, render the
report, write it, and answer; each filesystem failure is answered with
HTTP 500 and the handler returns. -/
def writeHandler (req : Request) (o : WriteEnv) (s : ServerState) : ServerState × HttpResponse :=
  let s1 : ServerState := { s with requestCount := addInt64 s.requestCount 1 }
  let s2 : ServerState := { s1 with writeCount := addInt64 s1.writeCount 1 }
  match o.mkdirErr with
  | some e => (s2, ⟨500, "Failed to create log directory: " ++ e ++ "\n"⟩)
  | none =>
    let filename := formatYmdHms o.now ++ "-log.txt"
    let path := joinLogDir filename
    match o.openErr with
    | some e => (s2, ⟨500, "Failed to create log file: " ++ e ++ "\n"⟩)
    | none =>
      let s3 : ServerState := { s2 with fs := fsSet s2.fs path "" }
      let hostname := o.hostnameRes.getD ""
      let appName := getEnvOrDefault o.environ "APP_NAME" "OpenShift Go Monolith"
      let envName := getEnvOrDefault o.environ "APP_ENV" "development"
      let logContent := renderLogContent o.nowRFC3339 s2.writeCount appName envName hostname
        req.remoteAddr o.goVersion s2.requestCount o.uptime o.goroutines o.memMB
        req.method req.urlPath req.userAgent
      match o.writeErr with
      | some e =>
        ({ s3 with fs := fsSet s3.fs path (logContent.take o.partLen) },
          ⟨500, "Failed to write log content: " ++ e ++ "\n"⟩)
      | none =>
        ({ s3 with fs := fsSet s3.fs path logContent },
          ⟨200, renderWriteResponse filename s2.writeCount o.respRFC3339
            logContent.utf8ByteSize⟩)

/-- The ambient inputs of one `infoHandler` invocation; `encodeErr = true`
models a `json.Encoder.Encode` failure. -/
structure InfoEnv where
  environ : List (String × String)
  hostnameRes : Option String
  nowRFC3339 : String
  encodeErr : Bool

/-- `infoHandler` (lines 43–73 of `main.go`): increment the request counter,
resolve the hostname with the `"unknown"` fallback, build `AppInfo`, and
answer it JSON-encoded; an encoding failure is answered with HTTP 500. -/
def infoHandler (o : InfoEnv) (s : ServerState) : ServerState × HttpResponse :=
  let s1 : ServerState := { s with requestCount := addInt64 s.requestCount 1 }
  let hostname := match o.hostnameRes with
    | some h => h
    | none => "unknown"
  let info : AppInfo :=
    { appName := getEnvOrDefault o.environ "APP_NAME" "OpenShift Go Monolith"
      envName := getEnvOrDefault o.environ "APP_ENV" "development"
      dbUser := getEnvOrDefault o.environ "DB_USER" "not_configured"
      version := "1.1.0"
      hostname := hostname
      timestamp := o.nowRFC3339 }
  if o.encodeErr then (s1, ⟨500, "Internal server error\n"⟩)
  else (s1, ⟨200, encodeAppInfo info⟩)

/-- The ambient inputs of one `statsHandler` invocation. -/
structure StatsEnv where
  uptime : String
  goVersion : String
  goroutines : Int
  memMB : Nat
  nowRFC3339 : String
  encodeErr : Bool

/-- `statsHandler` (lines 208–233 of `main.go`): increment the request
counter, snapshot the counters and runtime statistics, and answer them
JSON-encoded; an encoding failure is answered with HTTP 500. -/
def statsHandler (o : StatsEnv) (s : ServerState) : ServerState × HttpResponse :=
  let s1 : ServerState := { s with requestCount := addInt64 s.requestCount 1 }
  let st : Stats :=
    { uptime := o.uptime
      totalRequests := s1.requestCount
      writeOps := s1.writeCount
      goVersion := o.goVersion
      numGoroutines := o.goroutines
      memoryAllocMB := o.memMB
      serverTime := o.nowRFC3339 }
  if o.encodeErr then (s1, ⟨500, "Internal server error\n"⟩)
  else (s1, ⟨200, encodeStats st⟩)

/-- `healthHandler` (lines 201–206 of `main.go`): increment the request
counter and answer plain-text `OK`; there is no error branch. -/
def healthHandler (_req : Request) (s : ServerState) : ServerState × HttpResponse :=
  ({ s with requestCount := addInt64 s.requestCount 1 }, ⟨200, "OK"⟩)

/-- The log file content a successful `writeHandler` run computes, as a
function of the request, the oracle and the pre-state: both counters have
already been incremented when the template arguments are loaded. -/
def writeContent (req : Request) (o : WriteEnv) (s : ServerState) : String :=
  renderLogContent o.nowRFC3339 (addInt64 s.writeCount 1)
    (getEnvOrDefault o.environ "APP_NAME" "OpenShift Go Monolith")
    (getEnvOrDefault o.environ "APP_ENV" "development")
    (o.hostnameRes.getD "") req.remoteAddr o.goVersion (addInt64 s.requestCount 1)
    o.uptime o.goroutines o.memMB req.method req.urlPath req.userAgent

/-- Spec-side (from the spec's naming pattern, for comparison with the
code's formatter): the fixed-width zero-padded decimal rendering of `n`,
digit `i` being the coefficient of `10 ^ (w - 1 - i)`. -/
def specPad (w n : Nat) : String :=
  String.mk ((List.range w).map fun i => digitChar (n / 10 ^ (w - 1 - i) % 10))

/-- Spec-side: the file name the spec prescribes,
`<YYYYMMDD-HHMMSS>-log.txt` at second resolution. -/
def specLogFileName (t : GoTime) : String :=
  specPad 4 t.year ++ specPad 2 t.month ++ specPad 2 t.day ++ "-" ++ specPad 2 t.hour ++
    specPad 2 t.minute ++ specPad 2 t.second ++ "-log.txt"

/-- Is `c` a decimal digit? -/
def isDigitChar (c : Char) : Bool := decide (48 ≤ c.toNat) && decide (c.toNat ≤ 57)

/-- Spec-side: does a file name match the second-resolution timestamp
pattern, eight digits, a dash, six digits, then the literal `-log.txt`? -/
def matchesLogName (name : String) : Bool :=
  name.data.length == 23 &&
  (name.data.take 8).all isDigitChar &&
  (name.data.getD 8 ' ' == '-') &&
  ((name.data.drop 9).take 6).all isDigitChar &&
  (name.data.drop 15 == "-log.txt".data)

/-- A concrete clock reading used by the witnesses. -/
def sampleTime : GoTime := ⟨2024, 1, 2, 3, 4, 5⟩

/-- A concrete request used by the witnesses. -/
def sampleReq : Request :=
  { method := "POST", urlPath := "/api/write", remoteAddr := "10.0.0.7:4242",
    userAgent := "curl/8.6.0" }

/-- A concrete all-successful write oracle used by the witnesses. -/
def sampleWriteEnv : WriteEnv :=
  { environ := [("APP_NAME", "demo")], hostnameRes := some "pod-1", now := sampleTime,
    nowRFC3339 := "2024-01-02T03:04:05Z", respRFC3339 := "2024-01-02T03:04:05Z",
    uptime := "5s", goVersion := "go1.22.1", goroutines := 7, memMB := 3,
    mkdirErr := none, openErr := none, writeErr := none, partLen := 0 }

/-- A concrete info oracle used by the witnesses. -/
def sampleInfoEnv : InfoEnv :=
  { environ := [("APP_NAME", "demo")], hostnameRes := none,
    nowRFC3339 := "2024-01-02T03:04:05Z", encodeErr := false }

/-- A concrete stats oracle used by the witnesses. -/
def sampleStatsEnv : StatsEnv :=
  { uptime := "5s", goVersion := "go1.22.1", goroutines := 7, memMB := 3,
    nowRFC3339 := "2024-01-02T03:04:05Z", encodeErr := false }

/-- A concrete initial process state used by the witnesses. -/
def state0 : ServerState := { requestCount := 0, writeCount := 0, fs := [] }

/-! ## Helper lemmas -/

theorem int64Wrap_eq_self (x : Int) (h1 : -(2 ^ 63) ≤ x) (h2 : x < 2 ^ 63) :
    int64Wrap x = x := by
  unfold int64Wrap
  have hb : (2 : Int) ^ 64 = 2 ^ 63 + 2 ^ 63 := by norm_num
  have h3 : (0 : Int) ≤ x + 2 ^ 63 := by linarith
  have h4 : x + 2 ^ 63 < 2 ^ 64 := by rw [hb]; linarith
  rw [Int.emod_eq_of_lt h3 h4]
  ring

theorem addInt64_one (c : Int) (h0 : 0 ≤ c) (h1 : c + 1 < 2 ^ 63) :
    addInt64 c 1 = c + 1 := by
  unfold addInt64
  have hpow : (0 : Int) < 2 ^ 63 := by positivity
  exact int64Wrap_eq_self _ (by linarith) h1

theorem fsGet_fsSet_self (fs : List (String × String)) (p c : String) :
    fsGet (fsSet fs p c) p = some c := by
  induction fs with
  | nil => simp [fsSet, fsGet]
  | cons hd tl ih =>
    obtain ⟨q, d⟩ := hd
    by_cases h : q = p <;> simp [fsSet, fsGet, h, ih]

theorem fsGet_fsSet_ne (fs : List (String × String)) (p c q : String) (h : q ≠ p) :
    fsGet (fsSet fs p c) q = fsGet fs q := by
  induction fs with
  | nil => simp [fsSet, fsGet, Ne.symm h]
  | cons hd tl ih =>
    obtain ⟨r, d⟩ := hd
    by_cases hr : r = p
    · subst hr
      simp [fsSet, fsGet, Ne.symm h]
    · simp [fsSet, fsGet, hr, ih]

theorem fsSet_fsSet (fs : List (String × String)) (p a b : String) :
    fsSet (fsSet fs p a) p b = fsSet fs p b := by
  induction fs with
  | nil => simp [fsSet]
  | cons hd tl ih =>
    obtain ⟨q, d⟩ := hd
    by_cases h : q = p <;> simp [fsSet, h, ih]

theorem fsSet_keys (fs : List (String × String)) (p a b : String) :
    (fsSet fs p a).map Prod.fst = (fsSet fs p b).map Prod.fst := by
  induction fs with
  | nil => simp [fsSet]
  | cons hd tl ih =>
    obtain ⟨q, d⟩ := hd
    by_cases h : q = p <;> simp [fsSet, h, ih]

theorem isDigitChar_digitChar (m : Nat) (h : m < 10) : isDigitChar (digitChar m) = true := by
  interval_cases m <;> decide

theorem pad2_data (n : Nat) (h : n < 100) :
    (pad2 n).data = [digitChar (n / 10), digitChar (n % 10)] := by
  unfold pad2
  rw [if_pos h]

theorem pad4_data (n : Nat) (h : n < 10000) :
    (pad4 n).data = [digitChar (n / 1000), digitChar (n / 100 % 10), digitChar (n / 10 % 10),
      digitChar (n % 10)] := by
  unfold pad4
  rw [if_pos h]

theorem formatYmdHms_data (t : GoTime) (hy : t.year < 10000) (hmo : t.month < 100)
    (hd : t.day < 100) (hh : t.hour < 100) (hmi : t.minute < 100) (hs : t.second < 100) :
    (formatYmdHms t).data =
      [digitChar (t.year / 1000), digitChar (t.year / 100 % 10), digitChar (t.year / 10 % 10),
       digitChar (t.year % 10), digitChar (t.month / 10), digitChar (t.month % 10),
       digitChar (t.day / 10), digitChar (t.day % 10), '-',
       digitChar (t.hour / 10), digitChar (t.hour % 10), digitChar (t.minute / 10),
       digitChar (t.minute % 10), digitChar (t.second / 10), digitChar (t.second % 10)] := by
  unfold formatYmdHms
  simp [String.data_append, pad4_data _ hy, pad2_data _ hmo, pad2_data _ hd, pad2_data _ hh,
    pad2_data _ hmi, pad2_data _ hs]

theorem matchesLogName_format (t : GoTime) (hy : t.year < 10000) (hmo : t.month < 100)
    (hd : t.day < 100) (hh : t.hour < 100) (hmi : t.minute < 100) (hs : t.second < 100) :
    matchesLogName (formatYmdHms t ++ "-log.txt") = true := by
  unfold matchesLogName
  rw [String.data_append, formatYmdHms_data t hy hmo hd hh hmi hs]
  have hsuffix : "-log.txt".data = ['-', 'l', 'o', 'g', '.', 't', 'x', 't'] := rfl
  rw [hsuffix]
  simp [List.take, List.drop, List.getD,
    isDigitChar_digitChar _ (by omega : t.year / 1000 < 10),
    isDigitChar_digitChar _ (by omega : t.year / 100 % 10 < 10),
    isDigitChar_digitChar _ (by omega : t.year / 10 % 10 < 10),
    isDigitChar_digitChar _ (by omega : t.year % 10 < 10),
    isDigitChar_digitChar _ (by omega : t.month / 10 < 10),
    isDigitChar_digitChar _ (by omega : t.month % 10 < 10),
    isDigitChar_digitChar _ (by omega : t.day / 10 < 10),
    isDigitChar_digitChar _ (by omega : t.day % 10 < 10),
    isDigitChar_digitChar _ (by omega : t.hour / 10 < 10),
    isDigitChar_digitChar _ (by omega : t.hour % 10 < 10),
    isDigitChar_digitChar _ (by omega : t.minute / 10 < 10),
    isDigitChar_digitChar _ (by omega : t.minute % 10 < 10),
    isDigitChar_digitChar _ (by omega : t.second / 10 < 10),
    isDigitChar_digitChar _ (by omega : t.second % 10 < 10)]

theorem pad2_eq_specPad (n : Nat) (h : n < 100) : pad2 n = specPad 2 n := by
  have h1 : n / 10 % 10 = n / 10 := by omega
  unfold pad2 specPad
  rw [if_pos h]
  have h2 : List.range 2 = [0, 1] := rfl
  rw [h2]
  norm_num [h1]

theorem pad4_eq_specPad (n : Nat) (h : n < 10000) : pad4 n = specPad 4 n := by
  have h1 : n / 1000 % 10 = n / 1000 := by omega
  unfold pad4 specPad
  rw [if_pos h]
  have h2 : List.range 4 = [0, 1, 2, 3] := rfl
  rw [h2]
  norm_num [h1]

theorem fileName_eq_spec (t : GoTime) (hy : t.year < 10000) (hmo : t.month < 100)
    (hd : t.day < 100) (hh : t.hour < 100) (hmi : t.minute < 100) (hs : t.second < 100) :
    formatYmdHms t ++ "-log.txt" = specLogFileName t := by
  unfold formatYmdHms specLogFileName
  rw [pad4_eq_specPad _ hy, pad2_eq_specPad _ hmo, pad2_eq_specPad _ hd, pad2_eq_specPad _ hh,
    pad2_eq_specPad _ hmi, pad2_eq_specPad _ hs]

theorem writeHandler_success_eq (req : Request) (o : WriteEnv) (s : ServerState)
    (hm : o.mkdirErr = none) (ho : o.openErr = none) (hw : o.writeErr = none) :
    writeHandler req o s =
      ({ requestCount := addInt64 s.requestCount 1, writeCount := addInt64 s.writeCount 1,
         fs := fsSet s.fs (joinLogDir (formatYmdHms o.now ++ "-log.txt"))
           (writeContent req o s) },
       ⟨200, renderWriteResponse (formatYmdHms o.now ++ "-log.txt") (addInt64 s.writeCount 1)
         o.respRFC3339 (writeContent req o s).utf8ByteSize⟩) := by
  unfold writeHandler writeContent
  rw [hm, ho, hw]
  simp [fsSet_fsSet]

theorem writeHandler_counts (req : Request) (o : WriteEnv) (s : ServerState) :
    (writeHandler req o s).1.requestCount = addInt64 s.requestCount 1 ∧
    (writeHandler req o s).1.writeCount = addInt64 s.writeCount 1 := by
  cases hmk : o.mkdirErr with
  | some e => simp [writeHandler, hmk]
  | none =>
    cases hop : o.openErr with
    | some e => simp [writeHandler, hmk, hop]
    | none =>
      cases hwr : o.writeErr with
      | some e => simp [writeHandler, hmk, hop, hwr]
      | none => simp [writeHandler, hmk, hop, hwr]

theorem writeHandler_failure_status (req : Request) (o : WriteEnv) (s : ServerState)
    (hfail : o.mkdirErr.isSome ∨ o.openErr.isSome ∨ o.writeErr.isSome) :
    (writeHandler req o s).2.status = 500 := by
  cases hmk : o.mkdirErr with
  | some e => simp [writeHandler, hmk]
  | none =>
    cases hop : o.openErr with
    | some e => simp [writeHandler, hmk, hop]
    | none =>
      cases hwr : o.writeErr with
      | some e => simp [writeHandler, hmk, hop, hwr]
      | none => rw [hmk, hop, hwr] at hfail; simp at hfail

theorem renderLogContent_contains_opNum (ts : String) (opNum : Int)
    (appName envName hostname clientAddr goVer : String) (totalReq : Int) (uptime : String)
    (goroutines : Int) (memMB : Nat) (method urlPath userAgent : String) :
    ∃ pre post,
      renderLogContent ts opNum appName envName hostname clientAddr goVer totalReq uptime
          goroutines memMB method urlPath userAgent =
        pre ++ (toString opNum ++ post) := by
  refine ⟨"========================================\n" ++
    "🚀 OpenShift Go Monolith - Volume Write Log\n" ++
    "========================================\n\n" ++
    "⏰ Timestamp:        " ++ ts ++ "\n" ++
    "🔢 Operation Number: ",
    "\n" ++
    "📦 Application:      " ++ appName ++ "\n" ++
    "🌍 Environment:      " ++ envName ++ "\n" ++
    "🏠 Hostname:         " ++ hostname ++ "\n" ++
    "🌐 Client IP:        " ++ clientAddr ++ "\n" ++
    "🐹 Go Version:       " ++ goVer ++ "\n" ++
    "📊 Total Requests:   " ++ toString totalReq ++ "\n" ++
    "⏱️  Uptime:           " ++ uptime ++ "\n\n" ++
    "========================================\n" ++
    "📝 Log Entry Details\n" ++
    "========================================\n\n" ++
    "This log file was created as part of write operation #" ++ toString opNum ++ ".\n" ++
    "The application successfully wrote data to the persistent volume.\n" ++
    "No cap, this is bussin fr fr! 💯\n\n" ++
    "🖥️  System Information:\n" ++
    "- Number of Goroutines: " ++ toString goroutines ++ "\n" ++
    "- Memory Allocated: " ++ toString memMB ++ " MB\n" ++
    "- Status: Running smooth like butter 🧈\n\n" ++
    "📡 Request Information:\n" ++
    "- Method: " ++ method ++ "\n" ++
    "- Path: " ++ urlPath ++ "\n" ++
    "- User Agent: " ++ userAgent ++ "\n" ++
    "- Remote Address: " ++ clientAddr ++ "\n\n" ++
    "💭 Vibes: Immaculate ✨\n" ++
    "🎯 Status: Mission accomplished, chief! \n" ++
    "🔥 Performance: Absolutely slaying rn\n\n" ++
    "========================================\n" ++
    "✅ End of Log - Stay hydrated! 💧\n" ++
    "========================================\n", ?_⟩
  simp only [renderLogContent, String.append_assoc]

theorem renderLogContent_empty_hostname (ts : String) (opNum : Int)
    (appName envName clientAddr goVer : String) (totalReq : Int) (uptime : String)
    (goroutines : Int) (memMB : Nat) (method urlPath userAgent : String) :
    ∃ pre post,
      renderLogContent ts opNum appName envName "" clientAddr goVer totalReq uptime
          goroutines memMB method urlPath userAgent =
        pre ++ ("🏠 Hostname:         " ++ "\n") ++ post := by
  refine ⟨"========================================\n" ++
    "🚀 OpenShift Go Monolith - Volume Write Log\n" ++
    "========================================\n\n" ++
    "⏰ Timestamp:        " ++ ts ++ "\n" ++
    "🔢 Operation Number: " ++ toString opNum ++ "\n" ++
    "📦 Application:      " ++ appName ++ "\n" ++
    "🌍 Environment:      " ++ envName ++ "\n",
    "🌐 Client IP:        " ++ clientAddr ++ "\n" ++
    "🐹 Go Version:       " ++ goVer ++ "\n" ++
    "📊 Total Requests:   " ++ toString totalReq ++ "\n" ++
    "⏱️  Uptime:           " ++ uptime ++ "\n\n" ++
    "========================================\n" ++
    "📝 Log Entry Details\n" ++
    "========================================\n\n" ++
    "This log file was created as part of write operation #" ++ toString opNum ++ ".\n" ++
    "The application successfully wrote data to the persistent volume.\n" ++
    "No cap, this is bussin fr fr! 💯\n\n" ++
    "🖥️  System Information:\n" ++
    "- Number of Goroutines: " ++ toString goroutines ++ "\n" ++
    "- Memory Allocated: " ++ toString memMB ++ " MB\n" ++
    "- Status: Running smooth like butter 🧈\n\n" ++
    "📡 Request Information:\n" ++
    "- Method: " ++ method ++ "\n" ++
    "- Path: " ++ urlPath ++ "\n" ++
    "- User Agent: " ++ userAgent ++ "\n" ++
    "- Remote Address: " ++ clientAddr ++ "\n\n" ++
    "💭 Vibes: Immaculate ✨\n" ++
    "🎯 Status: Mission accomplished, chief! \n" ++
    "🔥 Performance: Absolutely slaying rn\n\n" ++
    "========================================\n" ++
    "✅ End of Log - Stay hydrated! 💧\n" ++
    "========================================\n", ?_⟩
  simp only [renderLogContent, String.append_assoc, String.append_empty, String.empty_append]

/-! ## Claims -/

/-- C1: for every write request in which directory creation, file creation or
the content write fails, `writeHandler` answers HTTP 500 while both counters
have nevertheless each been incremented by exactly 1, because both increments
happen before any filesystem I/O is attempted. -/
theorem writeHandler_failure_counts (req : Request) (o : WriteEnv) (s : ServerState)
    (hfail : o.mkdirErr.isSome ∨ o.openErr.isSome ∨ o.writeErr.isSome)
    (hr0 : 0 ≤ s.requestCount) (hr1 : s.requestCount + 1 < 2 ^ 63)
    (hw0 : 0 ≤ s.writeCount) (hw1 : s.writeCount + 1 < 2 ^ 63) :
    (writeHandler req o s).2.status = 500 ∧
    (writeHandler req o s).1.requestCount = s.requestCount + 1 ∧
    (writeHandler req o s).1.writeCount = s.writeCount + 1 := by
  obtain ⟨hc1, hc2⟩ := writeHandler_counts req o s
  exact ⟨writeHandler_failure_status req o s hfail,
    by rw [hc1, addInt64_one s.requestCount hr0 hr1],
    by rw [hc2, addInt64_one s.writeCount hw0 hw1]⟩

/-- C1 witness: a concrete run whose directory creation fails. -/
theorem writeHandler_failure_counts_witness :
    (writeHandler sampleReq { sampleWriteEnv with mkdirErr := some "permission denied" }
      state0).2.status = 500 ∧
    (writeHandler sampleReq { sampleWriteEnv with mkdirErr := some "permission denied" }
      state0).1.requestCount = state0.requestCount + 1 ∧
    (writeHandler sampleReq { sampleWriteEnv with mkdirErr := some "permission denied" }
      state0).1.writeCount = state0.writeCount + 1 :=
  writeHandler_failure_counts sampleReq
    { sampleWriteEnv with mkdirErr := some "permission denied" } state0
    (Or.inl (by decide)) (by decide) (by decide) (by decide) (by decide)

/-- C7: each of the info, stats and health handlers increments the
total-request counter by exactly 1 and leaves the write-op counter unchanged,
while the write handler increments both counters by exactly 1 — for every
oracle outcome, so no handler touches either counter in any other way. -/
theorem handlers_counter_deltas (s : ServerState) (oi : InfoEnv) (ost : StatsEnv)
    (ow : WriteEnv) (req hreq : Request)
    (hr0 : 0 ≤ s.requestCount) (hr1 : s.requestCount + 1 < 2 ^ 63)
    (hw0 : 0 ≤ s.writeCount) (hw1 : s.writeCount + 1 < 2 ^ 63) :
    ((infoHandler oi s).1.requestCount = s.requestCount + 1 ∧
      (infoHandler oi s).1.writeCount = s.writeCount) ∧
    ((statsHandler ost s).1.requestCount = s.requestCount + 1 ∧
      (statsHandler ost s).1.writeCount = s.writeCount) ∧
    ((healthHandler hreq s).1.requestCount = s.requestCount + 1 ∧
      (healthHandler hreq s).1.writeCount = s.writeCount) ∧
    ((writeHandler req ow s).1.requestCount = s.requestCount + 1 ∧
      (writeHandler req ow s).1.writeCount = s.writeCount + 1) := by
  have ha := addInt64_one s.requestCount hr0 hr1
  have hb := addInt64_one s.writeCount hw0 hw1
  obtain ⟨hc1, hc2⟩ := writeHandler_counts req ow s
  refine ⟨⟨?_, ?_⟩, ⟨?_, ?_⟩, ⟨?_, ?_⟩, ?_, ?_⟩
  · cases henc : oi.encodeErr <;> simp [infoHandler, henc, ha]
  · cases henc : oi.encodeErr <;> simp [infoHandler, henc]
  · cases henc : ost.encodeErr <;> simp [statsHandler, henc, ha]
  · cases henc : ost.encodeErr <;> simp [statsHandler, henc]
  · simp [healthHandler, ha]
  · simp [healthHandler]
  · rw [hc1, ha]
  · rw [hc2, hb]

/-- C7 witness: the four handlers at a concrete state and oracles. -/
theorem handlers_counter_deltas_witness :
    ((infoHandler sampleInfoEnv state0).1.requestCount = state0.requestCount + 1 ∧
      (infoHandler sampleInfoEnv state0).1.writeCount = state0.writeCount) ∧
    ((statsHandler sampleStatsEnv state0).1.requestCount = state0.requestCount + 1 ∧
      (statsHandler sampleStatsEnv state0).1.writeCount = state0.writeCount) ∧
    ((healthHandler sampleReq state0).1.requestCount = state0.requestCount + 1 ∧
      (healthHandler sampleReq state0).1.writeCount = state0.writeCount) ∧
    ((writeHandler sampleReq sampleWriteEnv state0).1.requestCount =
        state0.requestCount + 1 ∧
      (writeHandler sampleReq sampleWriteEnv state0).1.writeCount =
        state0.writeCount + 1) :=
  handlers_counter_deltas state0 sampleInfoEnv sampleStatsEnv sampleWriteEnv sampleReq
    sampleReq (by decide) (by decide) (by decide) (by decide)

/-- C8: for every request and every prior state of the process, the health
handler answers status 200 with the plain-text body `OK`; it has no failure
branch. -/
theorem healthHandler_always_ok (req : Request) (s : ServerState) :
    (healthHandler req s).2 = ⟨200, "OK"⟩ := rfl

/-- C9: the environment resolver returns the externally supplied value when
it is present and non-empty, and the default when the key is absent or its
value empty; it always succeeds with a string. -/
theorem getEnvOrDefault_spec (environ : List (String × String)) (key d : String) :
    (∀ v, environ.lookup key = some v → v ≠ "" → getEnvOrDefault environ key d = v) ∧
    ((environ.lookup key = none ∨ environ.lookup key = some "") →
      getEnvOrDefault environ key d = d) := by
  constructor
  · intro v hv hne
    simp [getEnvOrDefault, osGetenv, hv, hne]
  · rintro (h | h) <;> simp [getEnvOrDefault, osGetenv, h]

/-- C9 witness: a present non-empty key, an absent key, and an empty value. -/
theorem getEnvOrDefault_spec_witness :
    getEnvOrDefault [("A", "x"), ("B", "")] "A" "dflt" = "x" ∧
    getEnvOrDefault [("A", "x"), ("B", "")] "C" "dflt" = "dflt" ∧
    getEnvOrDefault [("A", "x"), ("B", "")] "B" "dflt" = "dflt" :=
  ⟨(getEnvOrDefault_spec [("A", "x"), ("B", "")] "A" "dflt").1 "x" rfl (by decide),
    (getEnvOrDefault_spec [("A", "x"), ("B", "")] "C" "dflt").2 (Or.inl rfl),
    (getEnvOrDefault_spec [("A", "x"), ("B", "")] "B" "dflt").2 (Or.inr rfl)⟩

/-- C2 counterexample: with directory and file creation succeeding and the
content write failing, the handler answers HTTP 500 but the created
(truncated) file is left behind under the log directory — a failed write
does leave a leftover file, contrary to the claim. -/
theorem writeHandler_leftover_file_cex :
    (writeHandler sampleReq
        { sampleWriteEnv with writeErr := some "no space left on device" }
        state0).2.status = 500 ∧
    fsGet (writeHandler sampleReq
        { sampleWriteEnv with writeErr := some "no space left on device" } state0).1.fs
      "data/log/20240102-030405-log.txt" = some "" :=
  ⟨rfl, rfl⟩

/-- C2 amended: on success the log file exists with exactly the rendered
content; the handle is closed on every exit path (`defer f.Close`), but a
content-write failure after creation leaves the created file behind with
whatever prefix was flushed — it is not removed, so a failed write can leave
a leftover file. -/
theorem writeHandler_success_content_failure_leftover (req : Request) (o : WriteEnv)
    (s : ServerState) (hm : o.mkdirErr = none) (ho : o.openErr = none) :
    (o.writeErr = none →
      (writeHandler req o s).2.status = 200 ∧
      fsGet (writeHandler req o s).1.fs (joinLogDir (formatYmdHms o.now ++ "-log.txt")) =
        some (writeContent req o s)) ∧
    (∀ e, o.writeErr = some e →
      (writeHandler req o s).2.status = 500 ∧
      fsGet (writeHandler req o s).1.fs (joinLogDir (formatYmdHms o.now ++ "-log.txt")) =
        some ((writeContent req o s).take o.partLen)) := by
  constructor
  · intro hw
    rw [writeHandler_success_eq req o s hm ho hw]
    exact ⟨rfl, fsGet_fsSet_self ..⟩
  · intro e he
    constructor
    · simp [writeHandler, hm, ho, he]
    · simp only [writeHandler, writeContent, hm, ho, he, fsSet_fsSet]
      exact fsGet_fsSet_self ..

/-- C2 witness: a successful concrete run has the file with exactly the
rendered content. -/
theorem writeHandler_success_content_failure_leftover_witness :
    (sampleWriteEnv.writeErr = none →
      (writeHandler sampleReq sampleWriteEnv state0).2.status = 200 ∧
      fsGet (writeHandler sampleReq sampleWriteEnv state0).1.fs
          (joinLogDir (formatYmdHms sampleWriteEnv.now ++ "-log.txt")) =
        some (writeContent sampleReq sampleWriteEnv state0)) ∧
    (∀ e, sampleWriteEnv.writeErr = some e →
      (writeHandler sampleReq sampleWriteEnv state0).2.status = 500 ∧
      fsGet (writeHandler sampleReq sampleWriteEnv state0).1.fs
          (joinLogDir (formatYmdHms sampleWriteEnv.now ++ "-log.txt")) =
        some ((writeContent sampleReq sampleWriteEnv state0).take sampleWriteEnv.partLen)) :=
  writeHandler_success_content_failure_leftover sampleReq sampleWriteEnv state0 rfl rfl

/-- C3: a single successful write request, run in isolation, adds exactly one
file under the log directory; its name matches the second-resolution
timestamp pattern and its content contains the operation number, the value of
the write-op counter just after this request's increment. -/
theorem writeHandler_single_file (req : Request) (o : WriteEnv) (s : ServerState)
    (hm : o.mkdirErr = none) (ho : o.openErr = none) (hw : o.writeErr = none)
    (hy : o.now.year < 10000) (hmo : o.now.month < 100) (hd : o.now.day < 100)
    (hh : o.now.hour < 100) (hmi : o.now.minute < 100) (hs : o.now.second < 100)
    (hw0 : 0 ≤ s.writeCount) (hw1 : s.writeCount + 1 < 2 ^ 63) :
    ∃ name content,
      matchesLogName name = true ∧
      fsGet (writeHandler req o s).1.fs (joinLogDir name) = some content ∧
      (∀ q, q ≠ joinLogDir name → fsGet (writeHandler req o s).1.fs q = fsGet s.fs q) ∧
      ∃ pre post, content = pre ++ (toString (s.writeCount + 1) ++ post) := by
  refine ⟨formatYmdHms o.now ++ "-log.txt", writeContent req o s,
    matchesLogName_format o.now hy hmo hd hh hmi hs, ?_, ?_, ?_⟩
  · rw [writeHandler_success_eq req o s hm ho hw]
    exact fsGet_fsSet_self ..
  · intro q hq
    rw [writeHandler_success_eq req o s hm ho hw]
    exact fsGet_fsSet_ne _ _ _ _ hq
  · rw [← addInt64_one s.writeCount hw0 hw1]
    unfold writeContent
    exact renderLogContent_contains_opNum ..

/-- C3 witness: the concrete successful run. -/
theorem writeHandler_single_file_witness :
    ∃ name content,
      matchesLogName name = true ∧
      fsGet (writeHandler sampleReq sampleWriteEnv state0).1.fs (joinLogDir name) =
        some content ∧
      (∀ q, q ≠ joinLogDir name →
        fsGet (writeHandler sampleReq sampleWriteEnv state0).1.fs q = fsGet state0.fs q) ∧
      ∃ pre post, content = pre ++ (toString (state0.writeCount + 1) ++ post) :=
  writeHandler_single_file sampleReq sampleWriteEnv state0 rfl rfl rfl (by decide) (by decide)
    (by decide) (by decide) (by decide) (by decide) (by decide) (by decide)

/-- C4: two successful write requests that compute the same second-resolution
timestamp leave exactly one surviving file: the second run truncates and
fully replaces the first file's content, and the surviving content is the
later request's rendering. -/
theorem writeHandler_same_second_overwrite (req1 req2 : Request) (o1 o2 : WriteEnv)
    (s : ServerState)
    (hm1 : o1.mkdirErr = none) (ho1 : o1.openErr = none) (hw1 : o1.writeErr = none)
    (hm2 : o2.mkdirErr = none) (ho2 : o2.openErr = none) (hw2 : o2.writeErr = none)
    (hsame : formatYmdHms o1.now = formatYmdHms o2.now) :
    fsGet (writeHandler req2 o2 (writeHandler req1 o1 s).1).1.fs
        (joinLogDir (formatYmdHms o2.now ++ "-log.txt")) =
      some (writeContent req2 o2 (writeHandler req1 o1 s).1) ∧
    ∀ q, q ≠ joinLogDir (formatYmdHms o2.now ++ "-log.txt") →
      fsGet (writeHandler req2 o2 (writeHandler req1 o1 s).1).1.fs q = fsGet s.fs q := by
  have h2 := writeHandler_success_eq req2 o2 (writeHandler req1 o1 s).1 hm2 ho2 hw2
  constructor
  · rw [h2]
    exact fsGet_fsSet_self ..
  · intro q hq
    rw [h2]
    have step2 : fsGet (fsSet (writeHandler req1 o1 s).1.fs
        (joinLogDir (formatYmdHms o2.now ++ "-log.txt"))
        (writeContent req2 o2 (writeHandler req1 o1 s).1)) q =
        fsGet (writeHandler req1 o1 s).1.fs q := fsGet_fsSet_ne _ _ _ _ hq
    rw [step2, writeHandler_success_eq req1 o1 s hm1 ho1 hw1]
    exact fsGet_fsSet_ne _ _ _ _ (by rw [hsame]; exact hq)

/-- C4 witness: two concrete successful runs within the same second. -/
theorem writeHandler_same_second_overwrite_witness :
    fsGet (writeHandler sampleReq sampleWriteEnv
        (writeHandler sampleReq sampleWriteEnv state0).1).1.fs
        (joinLogDir (formatYmdHms sampleWriteEnv.now ++ "-log.txt")) =
      some (writeContent sampleReq sampleWriteEnv
        (writeHandler sampleReq sampleWriteEnv state0).1) ∧
    ∀ q, q ≠ joinLogDir (formatYmdHms sampleWriteEnv.now ++ "-log.txt") →
      fsGet (writeHandler sampleReq sampleWriteEnv
        (writeHandler sampleReq sampleWriteEnv state0).1).1.fs q = fsGet state0.fs q :=
  writeHandler_same_second_overwrite sampleReq sampleReq sampleWriteEnv sampleWriteEnv
    state0 rfl rfl rfl rfl rfl rfl rfl

/-- C5: the file a successful write creates is named exactly by the current
time at second resolution, `YYYYMMDD-HHMMSS`, followed by the literal
`-log.txt` — the handler's filesystem effect is precisely one write to that
spec-named path. -/
theorem writeHandler_filename_spec (req : Request) (o : WriteEnv) (s : ServerState)
    (hm : o.mkdirErr = none) (ho : o.openErr = none) (hw : o.writeErr = none)
    (hy : o.now.year < 10000) (hmo : o.now.month < 100) (hd : o.now.day < 100)
    (hh : o.now.hour < 100) (hmi : o.now.minute < 100) (hs : o.now.second < 100) :
    (writeHandler req o s).1.fs =
      fsSet s.fs (joinLogDir (specLogFileName o.now)) (writeContent req o s) := by
  rw [writeHandler_success_eq req o s hm ho hw,
    fileName_eq_spec o.now hy hmo hd hh hmi hs]

/-- C5 witness: the concrete run writes `20240102-030405-log.txt`. -/
theorem writeHandler_filename_spec_witness :
    (writeHandler sampleReq sampleWriteEnv state0).1.fs =
      fsSet state0.fs (joinLogDir (specLogFileName sampleWriteEnv.now))
        (writeContent sampleReq sampleWriteEnv state0) :=
  writeHandler_filename_spec sampleReq sampleWriteEnv state0 rfl rfl rfl (by decide)
    (by decide) (by decide) (by decide) (by decide) (by decide)

/-- C6 counterexample: two runs under different configurations both create
their file under the same fixed directory `data/log`; the directory is a
hard-coded constant, not determined by configuration input. -/
theorem logDir_not_configured_cex :
    (writeHandler sampleReq { sampleWriteEnv with environ := [("LOG_DIR", "/custom/logs")] }
        state0).1.fs.map Prod.fst = ["data/log/20240102-030405-log.txt"] ∧
    (writeHandler sampleReq
        { sampleWriteEnv with environ := [("LOG_DIR", "/var/other"), ("APP_NAME", "B")] }
        state0).1.fs.map Prod.fst = ["data/log/20240102-030405-log.txt"] :=
  ⟨rfl, rfl⟩

/-- C6 amended: the directory under which the log file is created is the
fixed constant `./data/log` (joined as `data/log/…`); it is not taken from
the configuration, and changing the configuration cannot change which path
is written. -/
theorem writeHandler_fixed_logDir (req : Request) (o : WriteEnv) (s : ServerState)
    (hm : o.mkdirErr = none) (ho : o.openErr = none) (hw : o.writeErr = none) :
    (writeHandler req o s).1.fs =
      fsSet s.fs ("data/log/" ++ (formatYmdHms o.now ++ "-log.txt"))
        (writeContent req o s) ∧
    ∀ e, (writeHandler req { o with environ := e } s).1.fs.map Prod.fst =
      (writeHandler req o s).1.fs.map Prod.fst := by
  constructor
  · rw [writeHandler_success_eq req o s hm ho hw]
    rfl
  · intro e
    rw [writeHandler_success_eq req o s hm ho hw,
      writeHandler_success_eq req { o with environ := e } s hm ho hw]
    exact fsSet_keys ..

/-- C6 amended witness: the concrete run. -/
theorem writeHandler_fixed_logDir_witness :
    (writeHandler sampleReq sampleWriteEnv state0).1.fs =
      fsSet state0.fs ("data/log/" ++ (formatYmdHms sampleWriteEnv.now ++ "-log.txt"))
        (writeContent sampleReq sampleWriteEnv state0) ∧
    ∀ e, (writeHandler sampleReq { sampleWriteEnv with environ := e } state0).1.fs.map
        Prod.fst =
      (writeHandler sampleReq sampleWriteEnv state0).1.fs.map Prod.fst :=
  writeHandler_fixed_logDir sampleReq sampleWriteEnv state0 rfl rfl rfl

/-- C10: a hostname lookup failure in the write handler is silently ignored —
the write still succeeds and the rendered content embeds the empty string as
the hostname (the label is immediately followed by the newline), whereas the
info handler substitutes the sentinel `"unknown"` on the same failure. -/
theorem write_hostname_failure_empty (req : Request) (o : WriteEnv) (s si : ServerState)
    (oi : InfoEnv) (hm : o.mkdirErr = none) (ho : o.openErr = none) (hw : o.writeErr = none)
    (hh : o.hostnameRes = none) (hhi : oi.hostnameRes = none) (hei : oi.encodeErr = false) :
    (writeHandler req o s).2.status = 200 ∧
    (∃ content,
      fsGet (writeHandler req o s).1.fs (joinLogDir (formatYmdHms o.now ++ "-log.txt")) =
        some content ∧
      content = renderLogContent o.nowRFC3339 (addInt64 s.writeCount 1)
        (getEnvOrDefault o.environ "APP_NAME" "OpenShift Go Monolith")
        (getEnvOrDefault o.environ "APP_ENV" "development") "" req.remoteAddr o.goVersion
        (addInt64 s.requestCount 1) o.uptime o.goroutines o.memMB req.method req.urlPath
        req.userAgent ∧
      ∃ pre post, content = pre ++ ("🏠 Hostname:         " ++ "\n") ++ post) ∧
    (infoHandler oi si).2.body = encodeAppInfo
      { appName := getEnvOrDefault oi.environ "APP_NAME" "OpenShift Go Monolith",
        envName := getEnvOrDefault oi.environ "APP_ENV" "development",
        dbUser := getEnvOrDefault oi.environ "DB_USER" "not_configured",
        version := "1.1.0", hostname := "unknown", timestamp := oi.nowRFC3339 } := by
  have hcontent : writeContent req o s = renderLogContent o.nowRFC3339
      (addInt64 s.writeCount 1) (getEnvOrDefault o.environ "APP_NAME" "OpenShift Go Monolith")
      (getEnvOrDefault o.environ "APP_ENV" "development") "" req.remoteAddr o.goVersion
      (addInt64 s.requestCount 1) o.uptime o.goroutines o.memMB req.method req.urlPath
      req.userAgent := by
    unfold writeContent
    rw [hh]
    rfl
  refine ⟨?_, ⟨writeContent req o s, ?_, hcontent, ?_⟩, ?_⟩
  · rw [writeHandler_success_eq req o s hm ho hw]
  · rw [writeHandler_success_eq req o s hm ho hw]
    exact fsGet_fsSet_self ..
  · rw [hcontent]
    exact renderLogContent_empty_hostname ..
  · simp [infoHandler, hhi, hei]

/-- C10 witness: concrete runs with a failing hostname lookup. -/
theorem write_hostname_failure_empty_witness :
    (writeHandler sampleReq { sampleWriteEnv with hostnameRes := none } state0).2.status =
      200 ∧
    (∃ content,
      fsGet (writeHandler sampleReq { sampleWriteEnv with hostnameRes := none }
          state0).1.fs
          (joinLogDir (formatYmdHms ({ sampleWriteEnv with
            hostnameRes := none } : WriteEnv).now ++ "-log.txt")) = some content ∧
      content = renderLogContent ({ sampleWriteEnv with
          hostnameRes := none } : WriteEnv).nowRFC3339 (addInt64 state0.writeCount 1)
        (getEnvOrDefault ({ sampleWriteEnv with hostnameRes := none } : WriteEnv).environ
          "APP_NAME" "OpenShift Go Monolith")
        (getEnvOrDefault ({ sampleWriteEnv with hostnameRes := none } : WriteEnv).environ
          "APP_ENV" "development") "" sampleReq.remoteAddr
        ({ sampleWriteEnv with hostnameRes := none } : WriteEnv).goVersion
        (addInt64 state0.requestCount 1)
        ({ sampleWriteEnv with hostnameRes := none } : WriteEnv).uptime
        ({ sampleWriteEnv with hostnameRes := none } : WriteEnv).goroutines
        ({ sampleWriteEnv with hostnameRes := none } : WriteEnv).memMB sampleReq.method
        sampleReq.urlPath sampleReq.userAgent ∧
      ∃ pre post, content = pre ++ ("🏠 Hostname:         " ++ "\n") ++ post) ∧
    (infoHandler sampleInfoEnv state0).2.body = encodeAppInfo
      { appName := getEnvOrDefault sampleInfoEnv.environ "APP_NAME" "OpenShift Go Monolith",
        envName := getEnvOrDefault sampleInfoEnv.environ "APP_ENV" "development",
        dbUser := getEnvOrDefault sampleInfoEnv.environ "DB_USER" "not_configured",
        version := "1.1.0", hostname := "unknown",
        timestamp := sampleInfoEnv.nowRFC3339 } :=
  write_hostname_failure_empty sampleReq { sampleWriteEnv with hostnameRes := none } state0
    state0 sampleInfoEnv rfl rfl rfl rfl rfl rfl

end Monolith
